import Mathlib

/-!
# Verification of the ireina price-aggregation core

Shallow embedding of the repository's two subsystems:

* the per-source ticker data sources with their TTL cache
  (`src/datasources/*.rs`), the quorum-median `Aggregator`
  (`src/datasources/aggregator.rs`), and
* the catalog snapshot monitor (`src/coinbase_monitor.rs`).

Modelling conventions:

* `rust_decimal::Decimal` values are modelled as `ℚ` (the claims only use
  comparison, addition and exact halving, on which `Decimal` agrees with `ℚ`);
* `Instant` timestamps in the per-source cache are `Nat` ticks, and
  `time.elapsed()` at time `now` is `now - t`; `SystemTime` in the monitor is
  `Int` seconds so that `now - 24h` is always representable;
* network fetches are modelled by passing the fetch outcome
  (`Except String α`, the parsed vendor payload or the failure message) to the
  state-transition function of each `get_ticker_data`; the mutex-guarded cache
  slot becomes explicit state passing (the lock held across the whole call
  makes each call an atomic state transition);
* `serde_json::Value` is the inductive `Json` below.
-/

/-- `TickerData` from `src/datasources/datasource.rs`. -/
structure TickerData where
  last_price : Option ℚ
  prev_price : Option ℚ
  insufficient_data : Bool
  errors : List String
deriving DecidableEq, Repr

/-- `median` from `src/datasources/aggregator.rs`: sort ascending, take the
middle element (odd count) or the mean of the two middle elements (even
count); `none` on the empty list.  `data.sort()` is the ascending stable sort,
modelled by `List.insertionSort (· ≤ ·)`. -/
def median (data : List ℚ) : Option ℚ :=
  let sorted := List.insertionSort (· ≤ ·) data
  let size := sorted.length
  if size = 0 then
    none
  else if size % 2 = 0 then
    some ((sorted.getD (size / 2 - 1) 0 + sorted.getD (size / 2) 0) / 2)
  else
    some (sorted.getD (size / 2) 0)

/-- `Aggregator::get_ticker_data` from `src/datasources/aggregator.rs`.
`prices` is the list of member fetch results in member declaration order
(`join_all` preserves order and length, so `self.sources.len()` is
`prices.length`). -/
def Aggregator.get_ticker_data (prices : List TickerData) : TickerData :=
  let last_price_vec := prices.filterMap (fun t => t.last_price)
  let prev_price_vec := prices.filterMap (fun t => t.prev_price)
  { last_price := median last_price_vec
    prev_price := median prev_price_vec
    insufficient_data := decide (prices.length = 0)
      || (decide (last_price_vec.length < prices.length)
          && decide (last_price_vec.length < 3))
    errors := prices.flatMap (fun t => t.errors) }

/-!
`serde_json::Value`.  Arrays and objects carry their own list types
(`JsonList`, `JsonFields`) so that the inductive family is mutual rather than
nested; numbers are modelled as `ℚ`.
-/
mutual
inductive Json where
  | null
  | bool (b : Bool)
  | num (n : ℚ)
  | str (s : String)
  | arr (elems : JsonList)
  | obj (fields : JsonFields)
deriving DecidableEq, Repr
inductive JsonList where
  | nil
  | cons (hd : Json) (tl : JsonList)
deriving DecidableEq, Repr
inductive JsonFields where
  | nil
  | cons (key : String) (val : Json) (tl : JsonFields)
deriving DecidableEq, Repr
end

/-- `Value::Null` test (`value != Value::Null` in the sources is exactly a
constructor test). -/
def Json.isNull : Json → Bool
  | .null => true
  | _ => false

/-- Field access on an object's field list; missing keys yield `Null`. -/
def JsonFields.index : JsonFields → String → Json
  | .nil, _ => Json.null
  | .cons key val tl, k => if key = k then val else tl.index k

/-- `value[key]` for a string key, as implemented by `serde_json`: the field's
value on objects holding the key, `Value::Null` on everything else. -/
def Json.index (j : Json) (key : String) : Json :=
  match j with
  | .obj fields => fields.index key
  | _ => Json.null

/-- `Value::is_array`. -/
def Json.is_array : Json → Bool
  | .arr _ => true
  | _ => false

/-- `Value::as_array`. -/
def Json.as_array : Json → Option JsonList
  | .arr elems => some elems
  | _ => none

/-- Abbreviated rendering of a `Json` value, standing in for the `Display`
instance used when a vendor error payload is spliced into an `anyhow!`
message.  The claims never inspect the rendered payload. -/
def Json.render : Json → String
  | .null => "null"
  | .bool b => toString b
  | .num n => toString n
  | .str s => s
  | .arr _ => "<array>"
  | .obj _ => "<object>"

/-- `Product` from `src/coinbase_monitor.rs`; `other` is the
`#[serde(flatten)]` bag of unrecognized fields. -/
structure Product where
  id : String
  base_currency : String
  quote_currency : String
  display_name : String
  other : JsonFields
deriving DecidableEq, Repr

/-- `BTreeMap<String, Product>`, modelled as its entry list in ascending key
order (`BTreeMap` iteration order); `get` is `List.lookup`. -/
abbrev ProductMap := List (String × Product)

/-- The `History` state of `CoinbaseMonitor`: the `data` vector of
`(SystemTime, BTreeMap<String, Product>)` pairs, timestamps in seconds. -/
abbrev History := List (Int × ProductMap)

/-- The history update of `CoinbaseMonitor::monitor` on a successful poll
(`src/coinbase_monitor.rs` lines 42-49): keep the entries satisfying
`now - 24h <= time`, then push the new snapshot `(now, products)`. -/
def CoinbaseMonitor.monitor_step (data : History) (now : Int) (products : ProductMap) :
    History :=
  (data.filter (fun e => now - 3600 * 24 ≤ e.1)) ++ [(now, products)]

/-- `CoinbaseMonitor::query` (`src/coinbase_monitor.rs` lines 57-61). -/
def CoinbaseMonitor.query (data : History) (ticker : String) : Option Product :=
  data.getLast?.bind (fun e => e.2.lookup (ticker ++ "-USD"))

/-- Modelled from the spec: `JsonDiff::diff_string` of the external
`json-structural-diff` crate, applied to the serializations of two product
maps.  It returns `none` exactly when no structural difference exists —
serialization of the canonical entry lists is injective, so that is exactly
equality of the maps — and some rendering of the difference otherwise; the
rendering itself is opaque to the claims and is modelled as a marker. -/
def JsonDiff.diff_string (a : ProductMap) (b : ProductMap) : Option String :=
  if a = b then none else some ("<structural diff>")

/-- Modelled from the spec: the external `pretty-duration` crate's
human-readable rendering of a duration (content opaque to the claims). -/
def pretty_duration (d : Int) : String :=
  toString d ++ "s"

/-- `now.duration_since(t).map(pretty_duration).unwrap_or("[error]")`:
`SystemTime::duration_since` fails exactly when `t` is later than `now`. -/
def duration_since_str (now : Int) (t : Int) : String :=
  if t ≤ now then pretty_duration (now - t) else "[error]"

/-- `CoinbaseMonitor::query_cmp` (`src/coinbase_monitor.rs` lines 63-89):
diff the first (oldest) and last (newest) retained snapshots and annotate the
result with the two elapsed times. -/
def CoinbaseMonitor.query_cmp (data : History) (now : Int) : Option String :=
  match data.head?, data.getLast? with
  | some (stime, sproducts), some (etime, eproducts) =>
      (JsonDiff.diff_string sproducts eproducts).map (fun res =>
        res ++ "\nUpdated: " ++ duration_since_str now etime
          ++ " ago\nComparing to: " ++ duration_since_str now stime ++ " ago")
  | _, _ => none

/-- `CoinbaseMonitor::query_products` (`src/coinbase_monitor.rs` lines
91-107), after the transport layer: validate the parsed JSON body. -/
def CoinbaseMonitor.query_products (response : Json) : Except String Json :=
  if !(response.index ("message")).isNull then
    Except.error ("Coinbase monitor: " ++ (response.index ("message")).render)
  else if !response.is_array then
    Except.error ("Coinbase monitor: result is not array")
  else
    Except.ok response

/-!
The per-source coalescing TTL cache.  Every vendor file repeats the same
`get_ticker_data` body around a vendor-specific success constructor; the
shared shape is `cached_get_ticker_data`, and each vendor instantiates it.
`Instant` is a `Nat` tick count (seconds), `time.elapsed()` at time `now` is
`now - t`, and the `Mutex<Option<(Instant, TickerData)>>` slot is threaded as
explicit state (the lock is held for the whole call, so one call is one
atomic state transition).
-/

/-- The `Option<(Instant, TickerData)>` cache slot. -/
abbrev CacheSlot := Option (Nat × TickerData)

/-- The `match self.run_query().await` tail of every vendor
`get_ticker_data`: on `Ok` build the vendor sample and overwrite the cache
slot with `(Instant::now(), sample)`; on `Err` return the error sample and
leave the slot untouched. -/
def run_query_match (build : α → TickerData) (cache : CacheSlot) (now : Nat) :
    Except String α → TickerData × CacheSlot
  | .ok v => (build v, some (now, build v))
  | .error e =>
      ({ last_price := none, prev_price := none, insufficient_data := true,
         errors := [e] }, cache)

/-- The shared vendor `get_ticker_data` body: under the held lock, return the
cached sample if it is younger than the 5 s TTL, otherwise run the query
(whose outcome is the `query` argument) and handle it with
`run_query_match`. -/
def cached_get_ticker_data (build : α → TickerData) (cache : CacheSlot) (now : Nat)
    (query : Except String α) : TickerData × CacheSlot :=
  match cache with
  | some (t, td) =>
      if now - t < 5 then (td, some (t, td))
      else run_query_match build (some (t, td)) now query
  | none => run_query_match build none now query

/-- Success sample of `BinanceTickerDataSource::get_ticker_data`
(`src/datasources/binance.rs`): `(lastPrice, openPrice)`. -/
def BinanceTickerDataSource.build (v : ℚ × ℚ) : TickerData :=
  { last_price := some v.1, prev_price := some v.2, insufficient_data := false,
    errors := [] }

/-- `BinanceTickerDataSource::get_ticker_data` as a cache-state transition. -/
def BinanceTickerDataSource.get_ticker_data :
    CacheSlot → Nat → Except String (ℚ × ℚ) → TickerData × CacheSlot :=
  cached_get_ticker_data BinanceTickerDataSource.build

/-- Success sample of `CoinbaseTickerDataSource::get_ticker_data`
(`src/datasources/coinbase.rs`): `(last, open)`. -/
def CoinbaseTickerDataSource.build (v : ℚ × ℚ) : TickerData :=
  { last_price := some v.1, prev_price := some v.2, insufficient_data := false,
    errors := [] }

/-- `CoinbaseTickerDataSource::get_ticker_data` as a cache-state transition. -/
def CoinbaseTickerDataSource.get_ticker_data :
    CacheSlot → Nat → Except String (ℚ × ℚ) → TickerData × CacheSlot :=
  cached_get_ticker_data CoinbaseTickerDataSource.build

/-- Success sample of `GoldpriceTickerDataSource::get_ticker_data`
(`src/datasources/goldprice.rs`): `(metalPrice, metalClose)`. -/
def GoldpriceTickerDataSource.build (v : ℚ × ℚ) : TickerData :=
  { last_price := some v.1, prev_price := some v.2, insufficient_data := false,
    errors := [] }

/-- `GoldpriceTickerDataSource::get_ticker_data` as a cache-state
transition. -/
def GoldpriceTickerDataSource.get_ticker_data :
    CacheSlot → Nat → Except String (ℚ × ℚ) → TickerData × CacheSlot :=
  cached_get_ticker_data GoldpriceTickerDataSource.build

/-- Success sample of `KrakenTickerDataSource::get_ticker_data`
(`src/datasources/kraken.rs`): only the last price `c[0]`. -/
def KrakenTickerDataSource.build (v : ℚ) : TickerData :=
  { last_price := some v, prev_price := none, insufficient_data := false,
    errors := [] }

/-- `KrakenTickerDataSource::get_ticker_data` as a cache-state transition. -/
def KrakenTickerDataSource.get_ticker_data :
    CacheSlot → Nat → Except String ℚ → TickerData × CacheSlot :=
  cached_get_ticker_data KrakenTickerDataSource.build

/-- Success sample of `YahooFinanceTickerDataSource::get_ticker_data`
(`src/datasources/yfinance.rs`): the parsed `(last_price, prev_price)` pair,
either of which may be absent; note `insufficient_data` is
`last_price.is_none()` here, unlike the other vendors. -/
def YahooFinanceTickerDataSource.build (v : Option ℚ × Option ℚ) : TickerData :=
  { last_price := v.1, prev_price := v.2, insufficient_data := v.1.isNone,
    errors := [] }

/-- `YahooFinanceTickerDataSource::get_ticker_data` as a cache-state
transition. -/
def YahooFinanceTickerDataSource.get_ticker_data :
    CacheSlot → Nat → Except String (Option ℚ × Option ℚ) → TickerData × CacheSlot :=
  cached_get_ticker_data YahooFinanceTickerDataSource.build

/-- One quote of the `yahoo_finance_api` range query; the `f64` close prices
are modelled as `ℚ` (the `Decimal::from_f64` conversions, total on finite
values, are absorbed). -/
structure YahooQuote where
  close : ℚ
  adjclose : ℚ
deriving DecidableEq, Repr

/-- `YahooFinanceTickerDataSource::run_query` after the transport layer:
`quotes` is the fetched window already reversed to most-recent-first order.
Zero quotes yield `Ok((None, None))`; a zero or missing second `adjclose`
yields `Ok((Some last, None))`. -/
def YahooFinanceTickerDataSource.run_query (quotes : List YahooQuote) :
    Except String (Option ℚ × Option ℚ) :=
  let prev_price : ℚ := if 2 ≤ quotes.length then (quotes.getD 1 ⟨0, 0⟩).adjclose else 0
  if quotes.length = 0 then
    Except.ok (none, none)
  else if prev_price = 0 then
    Except.ok (some (quotes.getD 0 ⟨0, 0⟩).close, none)
  else
    Except.ok (some (quotes.getD 0 ⟨0, 0⟩).close, some prev_price)

/-! ## Theorems -/

/-- The length of `filterMap` is the number of elements mapped to `some`. -/
theorem length_filterMap_eq_countP (f : α → Option β) (l : List α) :
    (l.filterMap f).length = l.countP (fun a => (f a).isSome) := by
  induction l with
  | nil => rfl
  | cons a l ih =>
      cases h : f a <;>
        simp [List.filterMap_cons, h, List.countP_cons, ih]

/-- C1: the aggregated `insufficient_data` flag is
`member_count = 0 ∨ (reporting < member_count ∧ reporting < 3)`, where
`reporting` counts the members whose `last_price` is `some`; with 3 members
all reporting it is `false`, with 3 members and 2 reporting it is `true`, and
with 5 members and 4 reporting it is `false`. -/
theorem aggregator_insufficient_data_claim :
    (∀ prices : List TickerData,
      (Aggregator.get_ticker_data prices).insufficient_data = true ↔
        (prices.length = 0 ∨
          (prices.countP (fun t => t.last_price.isSome) < prices.length ∧
           prices.countP (fun t => t.last_price.isSome) < 3)))
    ∧ (∀ prices : List TickerData, prices.length = 3 →
        prices.countP (fun t => t.last_price.isSome) = 3 →
        (Aggregator.get_ticker_data prices).insufficient_data = false)
    ∧ (∀ prices : List TickerData, prices.length = 3 →
        prices.countP (fun t => t.last_price.isSome) = 2 →
        (Aggregator.get_ticker_data prices).insufficient_data = true)
    ∧ (∀ prices : List TickerData, prices.length = 5 →
        prices.countP (fun t => t.last_price.isSome) = 4 →
        (Aggregator.get_ticker_data prices).insufficient_data = false) := by
  have hmain : ∀ prices : List TickerData,
      (Aggregator.get_ticker_data prices).insufficient_data = true ↔
        (prices.length = 0 ∨
          (prices.countP (fun t => t.last_price.isSome) < prices.length ∧
           prices.countP (fun t => t.last_price.isSome) < 3)) := by
    intro prices
    simp [Aggregator.get_ticker_data, length_filterMap_eq_countP]
  refine ⟨hmain, ?_, ?_, ?_⟩
  · intro prices hlen hcount
    have h := hmain prices
    rw [hlen, hcount] at h
    cases hb : (Aggregator.get_ticker_data prices).insufficient_data
    · rfl
    · exact absurd (h.mp hb) (by omega)
  · intro prices hlen hcount
    have h := hmain prices
    rw [hlen, hcount] at h
    exact h.mpr (by omega)
  · intro prices hlen hcount
    have h := hmain prices
    rw [hlen, hcount] at h
    cases hb : (Aggregator.get_ticker_data prices).insufficient_data
    · rfl
    · exact absurd (h.mp hb) (by omega)

/-- Witness for C1: three members all reporting a `last_price` give
`insufficient_data = false`. -/
theorem aggregator_insufficient_data_claim_witness :
    (Aggregator.get_ticker_data
      [{ last_price := some 1, prev_price := none, insufficient_data := false, errors := [] },
       { last_price := some 2, prev_price := none, insufficient_data := false, errors := [] },
       { last_price := some 3, prev_price := none, insufficient_data := false, errors := [] }]).insufficient_data
      = false :=
  aggregator_insufficient_data_claim.2.1 _ (by rfl) (by rfl)

/-- C2: `median` is `none` on the empty list, the middle element of the
ascending-sorted list for an odd count, and the mean of the two middle
elements for an even count; and the five listed sample values hold. -/
theorem median_claim :
    (∀ (l s : List ℚ), s.Perm l → s.Sorted (· ≤ ·) →
      median l =
        if s.length = 0 then none
        else if s.length % 2 = 0 then
          some ((s.getD (s.length / 2 - 1) 0 + s.getD (s.length / 2) 0) / 2)
        else some (s.getD (s.length / 2) 0))
    ∧ median [] = none
    ∧ median [5] = some 5
    ∧ median [1, 3] = some 2
    ∧ median [1, 2, 9] = some 2
    ∧ median [1, 2, 8, 9] = some 5 := by
  refine ⟨?_, by decide, ?_, ?_, ?_, ?_⟩
  · intro l s hp hs
    have hs2 : (List.insertionSort (· ≤ ·) l).Sorted (· ≤ ·) :=
      List.sorted_insertionSort (· ≤ ·) l
    have hperm : s.Perm (List.insertionSort (· ≤ ·) l) :=
      hp.trans (List.perm_insertionSort (· ≤ ·) l).symm
    have heq : s = List.insertionSort (· ≤ ·) l :=
      List.eq_of_perm_of_sorted hperm hs hs2
    subst heq
    rfl
  · norm_num [median]
  · norm_num [median, List.orderedInsert]
  · norm_num [median, List.orderedInsert]
  · norm_num [median, List.orderedInsert]

/-- Witness for C2: the general sorted-permutation characterization applied
to the already-sorted list `[1, 2, 9]` yields its middle element. -/
theorem median_claim_witness : median [1, 2, 9] = some 2 := by
  have h := median_claim.1 [1, 2, 9] [1, 2, 9] (List.Perm.refl _)
    (by norm_num [List.sorted_cons])
  simpa using h

/-- C9: the aggregated `errors` list is the concatenation, in member order,
of the members' `errors` lists (no deduplication), and the zero-member
aggregate is `insufficient_data = true`, both prices `none`, empty errors. -/
theorem aggregator_errors_claim :
    (∀ prices : List TickerData,
      (Aggregator.get_ticker_data prices).errors =
        (prices.map (fun t => t.errors)).flatten)
    ∧ (∀ (p : TickerData) (rest : List TickerData),
      (Aggregator.get_ticker_data (p :: rest)).errors =
        p.errors ++ (Aggregator.get_ticker_data rest).errors)
    ∧ Aggregator.get_ticker_data [] =
        { last_price := none, prev_price := none, insufficient_data := true,
          errors := [] } := by
  refine ⟨?_, ?_, by rfl⟩
  · intro prices
    simp [Aggregator.get_ticker_data, List.flatMap]
  · intro p rest
    simp [Aggregator.get_ticker_data]

/-- The cache check fails at `now`: the slot is empty, or its entry is at
least TTL old.  This is exactly the condition under which a vendor
`get_ticker_data` reaches its `run_query` call. -/
def CacheSlot.expired (cache : CacheSlot) (now : Nat) : Prop :=
  ∀ t td, cache = some (t, td) → ¬ now - t < 5

/-- An expired cache makes `cached_get_ticker_data` run the query branch. -/
theorem cached_get_ticker_data_expired (build : α → TickerData) (cache : CacheSlot)
    (now : Nat) (h : cache.expired now) (q : Except String α) :
    cached_get_ticker_data build cache now q = run_query_match build cache now q := by
  match cache with
  | none => rfl
  | some (t, td) =>
      have ht := h t td rfl
      simp [cached_get_ticker_data, ht]

/-- Staleness of a cache slot is monotone in time. -/
theorem CacheSlot.expired_mono {cache : CacheSlot} {now now2 : Nat}
    (hle : now ≤ now2) (h : cache.expired now) : cache.expired now2 := by
  intro t td heq
  have := h t td heq
  omega

/-- C3 counterexample: a successful Yahoo fetch of an empty quote window —
success per the spec — yields `insufficient_data = true`, refuting
"`insufficient_data = false` and `errors = []` on every successful fetch". -/
theorem yahoo_empty_success_counterexample :
    ¬ ((YahooFinanceTickerDataSource.get_ticker_data none 0
          (YahooFinanceTickerDataSource.run_query [])).1.insufficient_data = false
        ∧ (YahooFinanceTickerDataSource.get_ticker_data none 0
          (YahooFinanceTickerDataSource.run_query [])).1.errors = []) := by
  decide

/-- C3 (amended): when the cache check fails and the vendor fetch succeeds,
every data source returns `errors = []`; `insufficient_data` is `false` for
Binance, Coinbase, Goldprice and Kraken, while the Yahoo source returns
`insufficient_data = last_price.isNone`, so a successful Yahoo fetch with
zero data points is flagged insufficient. -/
theorem datasource_success_claim (cache : CacheSlot) (now : Nat)
    (h : cache.expired now) :
    (∀ v : ℚ × ℚ,
      (BinanceTickerDataSource.get_ticker_data cache now (Except.ok v)).1.errors = []
      ∧ (BinanceTickerDataSource.get_ticker_data cache now (Except.ok v)).1.insufficient_data
          = false)
    ∧ (∀ v : ℚ × ℚ,
      (CoinbaseTickerDataSource.get_ticker_data cache now (Except.ok v)).1.errors = []
      ∧ (CoinbaseTickerDataSource.get_ticker_data cache now (Except.ok v)).1.insufficient_data
          = false)
    ∧ (∀ v : ℚ × ℚ,
      (GoldpriceTickerDataSource.get_ticker_data cache now (Except.ok v)).1.errors = []
      ∧ (GoldpriceTickerDataSource.get_ticker_data cache now (Except.ok v)).1.insufficient_data
          = false)
    ∧ (∀ v : ℚ,
      (KrakenTickerDataSource.get_ticker_data cache now (Except.ok v)).1.errors = []
      ∧ (KrakenTickerDataSource.get_ticker_data cache now (Except.ok v)).1.insufficient_data
          = false)
    ∧ (∀ v : Option ℚ × Option ℚ,
      (YahooFinanceTickerDataSource.get_ticker_data cache now (Except.ok v)).1.errors = []
      ∧ (YahooFinanceTickerDataSource.get_ticker_data cache now (Except.ok v)).1.insufficient_data
          = v.1.isNone) := by
  refine ⟨?_, ?_, ?_, ?_, ?_⟩ <;> intro v
  · simp [BinanceTickerDataSource.get_ticker_data,
      cached_get_ticker_data_expired _ _ _ h, run_query_match,
      BinanceTickerDataSource.build]
  · simp [CoinbaseTickerDataSource.get_ticker_data,
      cached_get_ticker_data_expired _ _ _ h, run_query_match,
      CoinbaseTickerDataSource.build]
  · simp [GoldpriceTickerDataSource.get_ticker_data,
      cached_get_ticker_data_expired _ _ _ h, run_query_match,
      GoldpriceTickerDataSource.build]
  · simp [KrakenTickerDataSource.get_ticker_data,
      cached_get_ticker_data_expired _ _ _ h, run_query_match,
      KrakenTickerDataSource.build]
  · simp [YahooFinanceTickerDataSource.get_ticker_data,
      cached_get_ticker_data_expired _ _ _ h, run_query_match,
      YahooFinanceTickerDataSource.build]

/-- Witness for the amended C3: a fresh Binance success on an empty cache. -/
theorem datasource_success_claim_witness :
    (BinanceTickerDataSource.get_ticker_data none 0 (Except.ok (1, 2))).1.insufficient_data
      = false :=
  ((datasource_success_claim none 0 (fun _ _ heq => nomatch heq)).1 (1, 2)).2

/-- C4: when the cache check fails and the vendor fetch fails, every data
source returns the sample `(none, none, insufficient, [message])` with
exactly the one failure message, leaves the cache slot unchanged, and — as
staleness is monotone — any later call still reaches the vendor query (its
outcome is that of the fresh query) instead of a cached failure. -/
theorem fetch_failure_claim {α : Type} (build : α → TickerData) (cache : CacheSlot)
    (now : Nat) (e : String) (h : cache.expired now) :
    (cached_get_ticker_data build cache now (Except.error e)).1 =
      { last_price := none, prev_price := none, insufficient_data := true,
        errors := [e] }
    ∧ (cached_get_ticker_data build cache now (Except.error e)).2 = cache
    ∧ (∀ now2, now ≤ now2 → ∀ q : Except String α,
        cached_get_ticker_data build
          ((cached_get_ticker_data build cache now (Except.error e)).2) now2 q =
          run_query_match build cache now2 q) := by
  rw [cached_get_ticker_data_expired build cache now h]
  refine ⟨rfl, rfl, ?_⟩
  intro now2 hle q
  exact cached_get_ticker_data_expired build cache now2
    (CacheSlot.expired_mono hle h) q

/-- Witness for C4: a failed Kraken fetch on an empty cache. -/
theorem fetch_failure_claim_witness :
    (cached_get_ticker_data KrakenTickerDataSource.build none 0
        (Except.error ("down"))).1 =
      { last_price := none, prev_price := none, insufficient_data := true,
        errors := ["down"] } :=
  (fetch_failure_claim KrakenTickerDataSource.build none 0 ("down")
    (fun _ _ heq => nomatch heq)).1

/-- C6: a cache slot strictly younger than the 5-tick TTL makes
`get_ticker_data` return a copy of the cached sample, leave the slot
unwritten, and ignore the vendor query entirely (the outcome is independent
of it, so no fetch is observable). -/
theorem cache_hit_claim {α : Type} (build : α → TickerData) (t : Nat)
    (td : TickerData) (now : Nat) (h : now - t < 5) :
    (∀ q : Except String α,
      cached_get_ticker_data build (some (t, td)) now q = (td, some (t, td)))
    ∧ (∀ q q2 : Except String α,
      cached_get_ticker_data build (some (t, td)) now q =
        cached_get_ticker_data build (some (t, td)) now q2) := by
  constructor
  · intro q
    simp [cached_get_ticker_data, h]
  · intro q q2
    simp [cached_get_ticker_data, h]

/-- Witness for C6: a zero-age Kraken cache entry is returned as-is on a
query that would fail. -/
theorem cache_hit_claim_witness :
    cached_get_ticker_data KrakenTickerDataSource.build
      (some (0, { last_price := some 1, prev_price := none,
                  insufficient_data := false, errors := [] }))
      0 (Except.error ("down")) =
      ({ last_price := some 1, prev_price := none, insufficient_data := false,
         errors := [] },
       some (0, { last_price := some 1, prev_price := none,
                  insufficient_data := false, errors := [] })) :=
  (cache_hit_claim KrakenTickerDataSource.build 0 _ 0 (by decide)).1
    (Except.error ("down"))

/-- C5: after a successful poll step the history is exactly the previous
entries with `captured_at ≥ now - 24h`, in their previous order, followed by
the new snapshot at `now`; hence it is non-empty, its newest entry is the
just-captured snapshot, and in the `t-30h`/`t-10h`/`t-1h` example only the
`t-30h` entry is evicted. -/
theorem monitor_history_claim :
    (∀ (data : History) (now : Int) (products : ProductMap),
      CoinbaseMonitor.monitor_step data now products =
        (data.filter (fun e => e.1 ≥ now - 3600 * 24)) ++ [(now, products)])
    ∧ (∀ (data : History) (now : Int) (products : ProductMap),
        CoinbaseMonitor.monitor_step data now products ≠ [])
    ∧ (∀ (data : History) (now : Int) (products : ProductMap),
        (CoinbaseMonitor.monitor_step data now products).getLast? =
          some (now, products))
    ∧ (∀ (t : Int) (p0 p1 p2 p : ProductMap),
        CoinbaseMonitor.monitor_step
          [(t - 30 * 3600, p0), (t - 10 * 3600, p1), (t - 1 * 3600, p2)] t p =
          [(t - 10 * 3600, p1), (t - 1 * 3600, p2), (t, p)]) := by
  refine ⟨?_, ?_, ?_, ?_⟩
  · intro data now products
    simp [CoinbaseMonitor.monitor_step, ge_iff_le]
  · intro data now products
    simp [CoinbaseMonitor.monitor_step]
  · intro data now products
    simp [CoinbaseMonitor.monitor_step]
  · intro t p0 p1 p2 p
    have e0 : (decide (t - 3600 * 24 ≤ t - 30 * 3600)) = false := by
      simp only [decide_eq_false_iff_not]
      omega
    have e1 : (decide (t - 3600 * 24 ≤ t - 10 * 3600)) = true := by
      simp only [decide_eq_true_eq]
      omega
    have e2 : (decide (t - 3600 * 24 ≤ t - 1 * 3600)) = true := by
      simp only [decide_eq_true_eq]
      omega
    simp only [CoinbaseMonitor.monitor_step, List.filter, e0, e1, e2,
      List.cons_append, List.nil_append]

/-- C7: `query_cmp` is `none` on an empty history and whenever the oldest and
newest retained snapshots carry equal product maps (in particular on a
single-snapshot history); when the maps differ, it is the diff rendering
followed by the two elapsed-time annotations. -/
theorem diff_claim :
    (∀ now : Int, CoinbaseMonitor.query_cmp [] now = none)
    ∧ (∀ (data : History) (now st et : Int) (sp ep : ProductMap),
        data.head? = some (st, sp) → data.getLast? = some (et, ep) → sp = ep →
        CoinbaseMonitor.query_cmp data now = none)
    ∧ (∀ (t : Int) (p : ProductMap) (now : Int),
        CoinbaseMonitor.query_cmp [(t, p)] now = none)
    ∧ (∀ (data : History) (now st et : Int) (sp ep : ProductMap),
        data.head? = some (st, sp) → data.getLast? = some (et, ep) → sp ≠ ep →
        ∃ res, JsonDiff.diff_string sp ep = some res ∧
          CoinbaseMonitor.query_cmp data now =
            some (res ++ "\nUpdated: " ++ duration_since_str now et
              ++ " ago\nComparing to: " ++ duration_since_str now st ++ " ago")) := by
  refine ⟨?_, ?_, ?_, ?_⟩
  · intro now
    rfl
  · intro data now st et sp ep h1 h2 heq
    subst heq
    simp [CoinbaseMonitor.query_cmp, h1, h2, JsonDiff.diff_string]
  · intro t p now
    simp [CoinbaseMonitor.query_cmp, JsonDiff.diff_string]
  · intro data now st et sp ep h1 h2 hne
    refine ⟨"<structural diff>", ?_, ?_⟩
    · simp [JsonDiff.diff_string, hne]
    · simp [CoinbaseMonitor.query_cmp, h1, h2, JsonDiff.diff_string, hne]

/-- Witness for C7: a one-snapshot history (oldest and newest coincide)
yields `none`. -/
theorem diff_claim_witness : CoinbaseMonitor.query_cmp [(0, [])] 0 = none :=
  diff_claim.2.1 [(0, [])] 0 0 0 [] [] (by rfl) (by rfl) rfl

/-- C8: `query` reads only the newest snapshot (histories with equal last
entries answer alike), returns `none` on an empty history, looks up
`ticker ++ "-USD"` in the newest snapshot, and on a snapshot holding
`"BTC-USD"` returns that product while `"ZZZ"` returns `none`. -/
theorem lookup_claim :
    (∀ (data data2 : History) (ticker : String),
        data.getLast? = data2.getLast? →
        CoinbaseMonitor.query data ticker = CoinbaseMonitor.query data2 ticker)
    ∧ (∀ ticker : String, CoinbaseMonitor.query [] ticker = none)
    ∧ (∀ (data : History) (tm : Int) (ps : ProductMap) (ticker : String),
        data.getLast? = some (tm, ps) →
        CoinbaseMonitor.query data ticker = ps.lookup (ticker ++ "-USD"))
    ∧ (∀ (tm : Int) (p : Product),
        CoinbaseMonitor.query [(tm, [("BTC-USD", p)])] ("BTC") = some p
        ∧ CoinbaseMonitor.query [(tm, [("BTC-USD", p)])] ("ZZZ") = none) := by
  refine ⟨?_, ?_, ?_, ?_⟩
  · intro data data2 ticker h
    simp [CoinbaseMonitor.query, h]
  · intro ticker
    rfl
  · intro data tm ps ticker h
    simp [CoinbaseMonitor.query, h]
  · intro tm p
    constructor
    · show (some (tm, [("BTC-USD", p)])).bind
        (fun e => e.2.lookup ("BTC" ++ "-USD")) = some p
      rfl
    · show (some (tm, [("BTC-USD", p)])).bind
        (fun e => e.2.lookup ("ZZZ" ++ "-USD")) = none
      rfl

/-- Witness for C8: the newest-snapshot lookup rule applied to a concrete
one-entry history. -/
theorem lookup_claim_witness :
    CoinbaseMonitor.query
      [(0, [("BTC-USD",
        { id := "BTC-USD", base_currency := "BTC", quote_currency := "USD",
          display_name := "BTC/USD", other := JsonFields.nil })])] ("BTC") =
      some { id := "BTC-USD", base_currency := "BTC", quote_currency := "USD",
             display_name := "BTC/USD", other := JsonFields.nil } := by
  have h := lookup_claim.2.2.1
    [(0, [("BTC-USD",
      { id := "BTC-USD", base_currency := "BTC", quote_currency := "USD",
        display_name := "BTC/USD", other := JsonFields.nil })])]
    0
    [("BTC-USD",
      { id := "BTC-USD", base_currency := "BTC", quote_currency := "USD",
        display_name := "BTC/USD", other := JsonFields.nil })]
    ("BTC") (by rfl)
  rw [h]
  rfl

/-- A `Json` value that `is_array` has an array payload. -/
theorem Json.as_array_isSome_of_is_array (r : Json) (h : r.is_array = true) :
    (r.as_array).isSome = true := by
  cases r <;> simp [Json.is_array, Json.as_array] at h ⊢

/-- C10: `query_products` returns `Ok` only for JSON arrays (a non-null
`message` field or a non-array root yields `Err`), and the returned value is
the response itself; hence `as_array` on it is `some` and the `unwrap` in
`monitor` cannot panic. -/
theorem query_products_claim :
    (∀ r v : Json, CoinbaseMonitor.query_products r = Except.ok v →
      v.is_array = true ∧ (v.as_array).isSome = true ∧ v = r)
    ∧ (∀ r : Json, (r.index ("message")).isNull = false →
        ∃ e, CoinbaseMonitor.query_products r = Except.error e)
    ∧ (∀ r : Json, r.is_array = false →
        ∃ e, CoinbaseMonitor.query_products r = Except.error e) := by
  refine ⟨?_, ?_, ?_⟩
  · intro r v h
    unfold CoinbaseMonitor.query_products at h
    by_cases h1 : (r.index ("message")).isNull
    · by_cases h2 : r.is_array
      · simp [h1, h2] at h
        subst h
        exact ⟨h2, Json.as_array_isSome_of_is_array r h2, rfl⟩
      · simp [h1, h2] at h
    · simp [h1] at h
  · intro r h
    refine ⟨"Coinbase monitor: " ++ (r.index ("message")).render, ?_⟩
    unfold CoinbaseMonitor.query_products
    simp [h]
  · intro r h
    unfold CoinbaseMonitor.query_products
    by_cases h1 : (r.index ("message")).isNull
    · refine ⟨"Coinbase monitor: result is not array", ?_⟩
      simp [h1, h]
    · refine ⟨"Coinbase monitor: " ++ (r.index ("message")).render, ?_⟩
      simp [h1]

/-- Witness for C10: an empty JSON array passes validation and `as_array`
succeeds on it. -/
theorem query_products_claim_witness :
    (Json.arr JsonList.nil).is_array = true
    ∧ ((Json.arr JsonList.nil).as_array).isSome = true
    ∧ Json.arr JsonList.nil = Json.arr JsonList.nil :=
  query_products_claim.1 (Json.arr JsonList.nil) (Json.arr JsonList.nil) (by rfl)
